import Mathlib

/-!
Verification development for the MathQuest live-tournament core.

The definitions below are a shallow embedding of the JavaScript source:

* `handleTournamentAnswer` — the answer admission and scoring engine.
* `triggerTournamentQuestion`, `triggerTournamentPause`,
  `triggerTournamentTimerSet`, `forceTournamentEnd` — the timer controller
  and finalization engine.

Modelling conventions:

* JavaScript numbers that the code only ever adds, subtracts, multiplies,
  divides by 1000 and compares are modelled as `ℚ` (timestamps in
  milliseconds, durations in seconds, scores).
* `undefined`/`null` fields are modelled as `Option`; JS truthiness tests
  (`if (!x)`) on numbers and strings use the helpers `truthyQ`/`truthyS`
  so that `0` and `""` fall through exactly as in the source.
* JS objects used as string-keyed dictionaries are modelled as association
  lists (`List (String × α)`); property assignment is `setKV`, which updates
  the first occurrence in place or appends, matching JS insertion-order
  semantics.
* Timer handles (`state.timer`, `state.intervalTimer`, `state._timerRef`)
  are modelled as `Bool` flags recording whether a callback is armed.
* Socket emissions are returned as an explicit `Event` list; database
  outcomes are modelled as boolean parameters of `forceTournamentEnd`.
  The `updateQuestionTimer` calls mutate the separate quiz-state module
  and are not part of the session state; the matching dashboard
  emission (`quiz_timer_update`) is recorded as an event.
* `calculateScore`, `computeLeaderboard`, `handleTimerExpiration` and
  `sendTournamentQuestion` live in helper modules that are not part of the
  provided sources; they are taken as parameters (or, where a claim depends
  on their behaviour, modelled from the spec with an explicit comment).
-/

/-- A submitted answer selection: a single option index or a list of
indices (`choix_multiple`), as stored by the answer handler. -/
def AnswerVal : Type := Int ⊕ List Int

instance : DecidableEq AnswerVal := by unfold AnswerVal; infer_instance

/-- The `{ answerIdx, clientTimestamp }` record stored in `state.answers`. -/
structure StoredAnswer where
  answerIdx : AnswerVal
  clientTimestamp : ℚ
deriving DecidableEq

/-- The fields of a question record that the embedded code reads:
its uid and its intrinsic time allowance `temps` (nullable in the schema). -/
structure Question where
  uid : String
  temps : Option ℚ
deriving DecidableEq

/-- A participant record: identity fields, running total `score`, and the
per-question score map `scoredQuestions` (possibly still undefined). -/
structure Participant where
  id : String
  pseudo : String
  avatar : String
  score : ℚ
  isDiffered : Bool
  scoredQuestions : Option (List (String × ℚ))
deriving DecidableEq

/-- One tournament session record (`tournamentState[code]`): the mutable
state shared by the answer handler and the timer controller. -/
structure TState where
  questions : List Question
  currentQuestionUid : Option String
  currentQuestionDuration : Option ℚ
  questionStart : Option ℚ
  paused : Bool
  stopped : Bool
  pausedRemainingTime : Option ℚ
  pausedAt : Option ℚ
  isDiffered : Bool
  linkedQuizId : Option String
  participants : List (String × Participant)
  answers : Option (List (String × List (String × StoredAnswer)))
  socketToJoueur : List (String × String)
  askedQuestions : List String
  statut : Option String
  isTournamentMode : Bool
  timerStatus : Option String
  previousQuestionUid : Option String
  timer : Bool
  intervalTimer : Bool
  timerRef : Bool
deriving DecidableEq

/-- Socket emissions performed by the embedded code. -/
inductive Event where
  | tournamentSetTimer (timeLeft : ℚ) (questionState : String)
  | questionStateUpdate (questionState : String) (remainingTime : ℚ)
  | quizTimerUpdate (quizId : String) (status : String) (questionId : Option String) (timeLeft : ℚ)
  | tournamentQuestion (uid : String) (time : ℚ)
  | tournamentEnd
  | redirect
  | expiration
deriving DecidableEq

/-- JS truthiness for a nullable number: `undefined`, `null` and `0` are
falsy. -/
def truthyQ : Option ℚ → Option ℚ
  | some x => if x = 0 then none else some x
  | none => none

/-- JS truthiness for a nullable string: `undefined`, `null` and `""` are
falsy. -/
def truthyS : Option String → Option String
  | some s => if s = "" then none else some s
  | none => none

/-- JS `o !== null && o > 0` on a nullable number (`undefined > 0` is false,
so both absent cases behave the same). -/
def posOpt : Option ℚ → Bool
  | some r => decide (0 < r)
  | none => false

/-- Dictionary lookup (`obj[k]`), first occurrence wins. -/
def lookupKV {α : Type} : List (String × α) → String → Option α
  | [], _ => none
  | (k', v') :: rest, k => if k' = k then some v' else lookupKV rest k

/-- Dictionary property assignment (`obj[k] = v`): update the first
occurrence in place, else append — JS insertion-order semantics. -/
def setKV {α : Type} : List (String × α) → String → α → List (String × α)
  | [], k, v => [(k, v)]
  | (k', v') :: rest, k, v =>
      if k' = k then (k, v) :: rest else (k', v') :: setKV rest k v

/-- The keys of a dictionary. -/
def keysOf {α : Type} (m : List (String × α)) : List String := m.map Prod.fst

/-- A dictionary has no duplicate keys (always true of a JS object). -/
def NodupKeys {α : Type} (m : List (String × α)) : Prop := (keysOf m).Nodup

/-- JS `Object.values(m).reduce((sum, v) => sum + v, 0)`. -/
def sumValues (m : List (String × ℚ)) : ℚ := (m.map Prod.snd).sum

/-- The effective allowed duration for answer admission:
`state.currentQuestionDuration || question.temps || 20` (JS falsy
fallback chain). -/
def timeAllowedOf (dur temps : Option ℚ) : ℚ :=
  match truthyQ dur with
  | some d => d
  | none =>
    match truthyQ temps with
    | some t => t
    | none => 20

/-- The scoring function `calculateScore` (helper module, not among the
provided sources); only its `totalScore` component is used by the handler,
so it is passed in as a parameter of this type. -/
def CalcScore : Type := Question → StoredAnswer → ℚ → Nat → ℚ

/-- Outcome of one `tournament_answer` event: silently ignored (log only),
rejected with a receipt carrying a reason, accepted with a receipt, or a
thrown `TypeError` (participant record missing on the accept path). -/
inductive AnswerOutcome where
  | ignored
  | rejected (reason : String)
  | accepted
  | crashed
deriving DecidableEq

/-- The accept path of `handleTournamentAnswer` (source lines storing the
answer and scoring it immediately): upsert the answer for
(player, question), recompute that question's score entry, and recompute
the player's total as the sum of the per-question scores. -/
def recordAnswerAndScore (calcScore : CalcScore) (state : TState)
    (joueurId questionUid : String) (question : Question)
    (answerIdx : AnswerVal) (clientTimestamp : ℚ) (questionStart : ℚ) :
    TState × AnswerOutcome :=
  let answers0 := state.answers.getD []
  let playerAnswers := (lookupKV answers0 joueurId).getD []
  let answers1 :=
    setKV answers0 joueurId
      (setKV playerAnswers questionUid ⟨answerIdx, clientTimestamp⟩)
  let st1 := { state with answers := some answers1 }
  match lookupKV st1.participants joueurId with
  | none => (st1, .crashed)
  | some part =>
    let sq := part.scoredQuestions.getD []
    let totalScore := calcScore question ⟨answerIdx, clientTimestamp⟩ questionStart st1.questions.length
    let sq2 := setKV sq questionUid totalScore
    let part2 := { part with scoredQuestions := some sq2, score := sumValues sq2 }
    ({ st1 with participants := setKV st1.participants joueurId part2 }, .accepted)

/-- The handler `handleTournamentAnswer` for one (live) session: resolve the player
from the socket, resolve the active question by uid, check admission
timing, then record and score.  The source's re-derived index bounds check
(`qIdx < 0 || qIdx >= length`) cannot fail once `find` has succeeded and
is omitted.  `now` is the server receive time (`Date.now()`). -/
def handleTournamentAnswer (calcScore : CalcScore) (now : ℚ) (state : TState)
    (socketId questionUid : String) (answerIdx : AnswerVal)
    (clientTimestamp : ℚ) : TState × AnswerOutcome :=
  match lookupKV state.socketToJoueur socketId with
  | none => (state, .ignored)
  | some joueurId =>
    match state.questions.find? (fun q => state.currentQuestionUid == some q.uid) with
    | none => (state, .ignored)
    | some question =>
      if question.uid ≠ questionUid then (state, .ignored)
      else
        let timeAllowed := timeAllowedOf state.currentQuestionDuration question.temps
        match truthyQ state.questionStart with
        | none => (state, .ignored)
        | some questionStart =>
          if state.stopped then (state, .rejected "stopped")
          else if !state.paused then
            if now - questionStart > timeAllowed * 1000 + 500 then
              (state, .rejected "late")
            else if clientTimestamp - questionStart > timeAllowed * 1000 then
              (state, .rejected "late")
            else
              recordAnswerAndScore calcScore state joueurId questionUid question
                answerIdx clientTimestamp questionStart
          else
            recordAnswerAndScore calcScore state joueurId questionUid question
              answerIdx clientTimestamp questionStart

/-- JS `parseFloat(x.toFixed(1))`: round to one decimal place. -/
def roundTenth (q : ℚ) : ℚ := (round (q * 10) : ℤ) / 10

/-- Clear `state.timer`, `state.intervalTimer` and `state._timerRef`
(the always-clear block at the top of the timer-control paths). -/
def clearAllTimers (s : TState) : TState :=
  { s with timer := false, intervalTimer := false, timerRef := false }

/-- The trigger `triggerTournamentPause(io, code, remainingTime = null)`: pause the
running countdown.  Ignored (pure no-op, nothing emitted) for a deferred,
already-paused or stopped session; otherwise cancels the in-flight timers,
computes the remaining time — the supplied override if it is non-null and
positive, else `max(0, duration − elapsed)` — stores it rounded to one
decimal, flips to paused, and broadcasts; the dashboard mirror is emitted
only when the stored remaining time is positive and the session is
quiz-linked.  `Date.now() − state.questionStart` is modelled with
`getD 0` defaults; theorems about the non-trivial path assume both fields
are present, as they are on any active session. -/
def triggerTournamentPause (now : ℚ) (state : TState)
    (remainingTime : Option ℚ) : TState × List Event :=
  if state.isDiffered || state.paused || state.stopped then (state, [])
  else
    let s := clearAllTimers state
    let calculatedRemainingTime : ℚ :=
      match remainingTime with
      | some r =>
        if 0 < r then r
        else max 0 ((s.currentQuestionDuration.getD 0) - (now - s.questionStart.getD 0) / 1000)
      | none => max 0 ((s.currentQuestionDuration.getD 0) - (now - s.questionStart.getD 0) / 1000)
    let precise := roundTenth calculatedRemainingTime
    let s2 := { s with pausedRemainingTime := some precise, pausedAt := some now,
                       paused := true, stopped := false }
    let evs :=
      [Event.questionStateUpdate "paused" precise] ++
        (if precise ≤ 0 then []
         else
           match truthyS s2.linkedQuizId with
           | some quizId => [Event.quizTimerUpdate quizId "pause" s2.currentQuestionUid precise]
           | none => [])
    (s2, evs)

/-- The tail of `triggerTournamentTimerSet` once the effective `timeLeft`
has been determined (source from the `timeLeft <= 0` abort check through
arming the interval and deadline timers). -/
def startTimerTail (now : ℚ) (code : String) (s3 : TState) (tl : ℚ)
    (forceActive : Bool) : TState × List Event :=
  if tl ≤ 0 then (s3, [])
  else
    let s4 := { s3 with currentQuestionDuration := some tl, paused := false, stopped := false }
    let ev1 := [Event.tournamentSetTimer tl "active"]
    let isTournamentMode :=
      (s4.statut == some "en cours") || code.startsWith "T" || s4.isTournamentMode
    let s5 := { s4 with isTournamentMode := isTournamentMode }
    let ev2 :=
      match truthyS s5.linkedQuizId with
      | some quizId =>
        let status := if forceActive then "play" else (truthyS s5.timerStatus).getD "play"
        [Event.quizTimerUpdate quizId status s5.currentQuestionUid tl]
      | none => []
    let ev3 :=
      if (truthyS s5.previousQuestionUid).isNone || s5.previousQuestionUid ≠ s5.currentQuestionUid then
        match s5.questions.find? (fun q => s5.currentQuestionUid == some q.uid) with
        | some q2 => [Event.tournamentQuestion q2.uid tl]
        | none => []
      else []
    let s6 := { s5 with previousQuestionUid := s5.currentQuestionUid,
                        questionStart := some now,
                        intervalTimer := true, timer := true, timerRef := true }
    (s6, ev1 ++ ev2 ++ ev3)

/-- The trigger `triggerTournamentTimerSet(io, code, timeLeft, forceActive = false)`:
the single authority over play/stop/edit.  `timeLeft = none` models a
JS `undefined`/`null` argument.  The registry-existence check
(`!state`) is resolved by the caller in this single-session model. -/
def triggerTournamentTimerSet (now : ℚ) (code : String) (state : TState)
    (timeLeft : Option ℚ) (forceActive : Bool) : TState × List Event :=
  if state.isDiffered then (state, [])
  else if timeLeft = some 0 ∧ state.stopped then (state, [])
  else
    let s := clearAllTimers state
    if timeLeft = some 0 then
      let s' := { s with stopped := true, paused := false,
                         currentQuestionDuration := some 0,
                         pausedRemainingTime := none, pausedAt := none }
      let evs :=
        [Event.tournamentSetTimer 0 "stopped"] ++
          (match truthyS s'.linkedQuizId with
           | some quizId => [Event.quizTimerUpdate quizId "stop" s'.currentQuestionUid 0]
           | none => [])
      (s', evs)
    else
      match truthyS s.currentQuestionUid with
      | none => (s, [])
      | some _ =>
        match s.questions.find? (fun q => s.currentQuestionUid == some q.uid) with
        | none => (s, [])
        | some question =>
          let tl1 : ℚ :=
            match timeLeft with
            | none =>
              if s.paused && posOpt s.pausedRemainingTime then s.pausedRemainingTime.getD 0
              else (truthyQ question.temps).getD 20
            | some t => if t ≤ 0 ∧ forceActive then (truthyQ question.temps).getD 20 else t
          let tl2 : ℚ :=
            if tl1 = 0 ∧ (truthyQ question.temps).isSome then (truthyQ question.temps).getD 20
            else tl1
          let resume := forceActive && s.paused && posOpt s.pausedRemainingTime
          let tl3 := if resume then s.pausedRemainingTime.getD 0 else tl2
          let s2 :=
            if resume then { s with paused := false, questionStart := some now, pausedAt := none }
            else s
          if !forceActive then
            if s2.stopped then
              ({ s2 with currentQuestionDuration := some tl3 },
               [Event.tournamentSetTimer tl3 "stopped"])
            else if s2.paused then
              let s3 := { s2 with pausedRemainingTime := some tl3,
                                  currentQuestionDuration := some tl3 }
              let evs :=
                [Event.tournamentSetTimer tl3 "paused"] ++
                  (match truthyS s3.linkedQuizId with
                   | some quizId => [Event.quizTimerUpdate quizId "pause" s3.currentQuestionUid tl3]
                   | none => [])
              (s3, evs)
            else
              startTimerTail now code { s2 with questionStart := some now } tl3 forceActive
          else
            startTimerTail now code
              { s2 with stopped := false, paused := false, questionStart := some now }
              tl3 forceActive

/-- The body of the 1-second `setInterval` callback armed by
`triggerTournamentTimerSet` (tick emission and zero-crossing expiry).
`remainingTime` is the captured countdown variable; the returned `ℚ` is
its updated value.  `handleTimerExpiration` lives in the helper module
that is not among the provided sources; modelled from the spec: the spec
calls it only "expiration handling" and ascribes it no cancellation of
the sibling timer and no change to the pause/stop flags, so its
invocation is recorded as an `Event.expiration` with the session left
unchanged. -/
def intervalTick (state : TState) (remainingTime : ℚ) : TState × ℚ × List Event :=
  if state.paused || state.stopped then
    ({ state with intervalTimer := false }, remainingTime, [])
  else
    let r := remainingTime - 1
    let ev := [Event.tournamentSetTimer (max 0 r) "active"]
    if r ≤ 0 then
      ({ state with intervalTimer := false }, r, ev ++ [Event.expiration])
    else (state, r, ev)

/-- The body of the full-duration `setTimeout` deadline callback armed by
`triggerTournamentTimerSet`: bail out when paused/stopped, otherwise clear
the interval (if still running) and invoke expiration handling (recorded
as `Event.expiration`, see `intervalTick`). -/
def deadlineFire (state : TState) : TState × List Event :=
  if state.paused || state.stopped then (state, [])
  else ({ state with intervalTimer := false }, [Event.expiration])

/-- List indexing with a possibly negative JS index
(`array[i]` is `undefined` for `i < 0`). -/
def intGet? {α : Type} (l : List α) (i : Int) : Option α :=
  if i < 0 then none else l[i.toNat]?

/-- The initial validation of `triggerTournamentQuestion`: resolve the
target question by uid if one is given (uid lookup overrides the index),
else bounds-check the index.  Returns the target index and, in the uid
case, the resolved question. -/
def resolveTarget (state : TState) (index : Int) (targetQuestionUid : Option String) :
    Option (Int × Option Question) :=
  match targetQuestionUid with
  | some uid =>
    match state.questions.findIdx? (fun q => q.uid == uid) with
    | some fi => some ((fi : Int), state.questions[fi]?)
    | none => none
  | none =>
    if (state.questions.length : Int) ≤ index then none else some (index, none)

/-- The trigger `triggerTournamentQuestion(io, code, index, linkedQuizId = null,
initialTime = null, targetQuestionUid = null)`: resolve the target
question, unconditionally overwrite `state.linkedQuizId`, set
`currentQuestionUid` and the effective duration, and emit the question
payload (`sendTournamentQuestion`, a helper not among the provided
sources, recorded as `Event.tournamentQuestion`).  Does not start the
countdown. -/
def triggerTournamentQuestion (state : TState) (index : Int)
    (linkedQuizId : Option String) (initialTime : Option ℚ)
    (targetQuestionUid : Option String) : TState × List Event :=
  match resolveTarget state index targetQuestionUid with
  | none => (state, [])
  | some (targetIndex, targetQuestion) =>
    let s1 := { state with linkedQuizId := linkedQuizId }
    let questionUid : Option String :=
      match targetQuestion with
      | some q => some q.uid
      | none => (intGet? s1.questions targetIndex).map Question.uid
    let s2 := { s1 with currentQuestionUid := questionUid }
    let question : Option Question :=
      match targetQuestion with
      | some q => some q
      | none => intGet? s2.questions targetIndex
    match question with
    | none => (s2, [])
    | some q =>
      let time : ℚ :=
        match initialTime with
        | some t => t
        | none => (truthyQ q.temps).getD 20
      let s3 := { s2 with currentQuestionUid := some q.uid,
                          currentQuestionDuration := some time }
      (s3, [Event.tournamentQuestion q.uid time])

/-- An entry of the leaderboard built by `forceTournamentEnd`. -/
structure LBEntry where
  id : String
  pseudo : String
  avatar : String
  score : ℚ
  isDiffered : Bool
deriving DecidableEq

/-- The `scaledLeaderboard.forEach` write-back: copy each scaled score
onto the matching in-memory participant. -/
def applyScaled (parts : List (String × Participant)) (lb : List LBEntry) :
    List (String × Participant) :=
  lb.foldl
    (fun ps e =>
      match lookupKV ps e.id with
      | some p => setKV ps e.id { p with score := e.score }
      | none => ps)
    parts

/-- Result of `forceTournamentEnd`: the registry entry afterwards
(`none` when `delete tournamentState[code]` ran), the events emitted to
the live channel, and whether the async function rejected with an
uncaught error. -/
structure EndResult where
  registry : Option TState
  events : List Event
  threw : Bool
deriving DecidableEq

/-- The finalizer `forceTournamentEnd(io, code)`: cancel the timer, sync
`askedQuestions` from the linked quiz state if present (`quizAsked`
models `quizState[linkedQuizId].askedQuestions`), compute the scaled
leaderboard (`computeLeaderboard`, a helper not among the provided
sources, passed as the parameter `computeLB`), write the scaled scores
back onto participants, persist via `prisma.tournoi.update`
(`updateOk = false` models that awaited write rejecting — it is NOT
inside a try/catch, so the function rejects there), then broadcast the
leaderboard, attempt the per-participant score writes inside a
try/catch (`_scoreSaveOk = false` models a caught failure there, and
`_tournoiId` the `findUnique` result; being caught, neither can affect
the emitted events, the registry removal or rejection, which is why the
result does not depend on them), broadcast the
redirect and delete the session.  The raw descending-sorted leaderboard
computed first in the source is only logged and is not modelled. -/
def forceTournamentEnd (computeLB : TState → List String → Nat → List LBEntry)
    (quizAsked : Option (List String)) (state : TState)
    (updateOk : Bool) (_tournoiId : Option String) (_scoreSaveOk : Bool) : EndResult :=
  let s := { state with timer := false }
  let s1 :=
    match truthyS s.linkedQuizId, quizAsked with
    | some _, some l =>
      { s with askedQuestions :=
          l.foldl (fun acc q => if q ∈ acc then acc else acc ++ [q]) s.askedQuestions }
    | _, _ => s
  let scaledLeaderboard := computeLB s1 s1.askedQuestions s1.questions.length
  let s2 := { s1 with participants := applyScaled s1.participants scaledLeaderboard }
  if !updateOk then { registry := some s2, events := [], threw := true }
  else
    { registry := none,
      events := [Event.tournamentEnd, Event.redirect],
      threw := false }

/-- A timer-controller operation, for stating reachability claims. -/
inductive Op where
  | setQuestion (index : Int) (linkedQuizId : Option String)
      (initialTime : Option ℚ) (targetUid : Option String)
  | setTimer (now : ℚ) (code : String) (timeLeft : Option ℚ) (forceActive : Bool)
  | pause (now : ℚ) (remainingTime : Option ℚ)

/-- Apply one controller operation to a session (state component only). -/
def applyOp (s : TState) : Op → TState
  | .setQuestion i l t u => (triggerTournamentQuestion s i l t u).1
  | .setTimer now code tl f => (triggerTournamentTimerSet now code s tl f).1
  | .pause now r => (triggerTournamentPause now s r).1

/-- Apply a sequence of controller operations. -/
def applyOps (s : TState) (ops : List Op) : TState := ops.foldl applyOp s

/-- The boolean timer-flag part of the spec's data-model invariant:
`paused` and `stopped` never both true, and `paused` implies
`pausedRemainingTime` is set. -/
def winv (s : TState) : Bool :=
  !(s.paused && s.stopped) && (!s.paused || s.pausedRemainingTime.isSome)

/-- How many of {active, paused, stopped} hold, where active is
`¬paused ∧ ¬stopped`. -/
def timerStateCount (s : TState) : Nat :=
  (if s.paused then 1 else 0) + (if s.stopped then 1 else 0) +
    (if !s.paused && !s.stopped then 1 else 0)

/-- One accepted answer submission, carrying the context the handler had
computed when it reached the accept path: the resolved active question
and the `questionStart` reference. -/
structure Submission where
  joueurId : String
  question : Question
  answerIdx : AnswerVal
  clientTimestamp : ℚ
  questionStart : ℚ
deriving DecidableEq

/-- Apply the accept-path mutation of one accepted submission (the
admission check guarantees the stored `questionUid` equals the resolved
question's uid). -/
def applySub (calcScore : CalcScore) (s : TState) (sub : Submission) : TState :=
  (recordAnswerAndScore calcScore s sub.joueurId sub.question.uid sub.question
    sub.answerIdx sub.clientTimestamp sub.questionStart).1

/-- Apply a sequence of accepted submissions in order. -/
def applySubs (calcScore : CalcScore) (s : TState) (subs : List Submission) : TState :=
  subs.foldl (applySub calcScore) s

/-- The most recent submission in `subs` by player `j` for question `q`
(`none` when there is no such submission). -/
def lastSubFor : List Submission → String → String → Option Submission
  | [], _, _ => none
  | sub :: rest, j, q =>
    match lastSubFor rest j q with
    | some l => some l
    | none =>
      if sub.joueurId == j && sub.question.uid == q then some sub else none

/-- The score the handler computes for a submission (`totalQuestions` is
the session's question count). -/
def scoreOfSub (calcScore : CalcScore) (totalQuestions : Nat) (sub : Submission) : ℚ :=
  calcScore sub.question ⟨sub.answerIdx, sub.clientTimestamp⟩ sub.questionStart totalQuestions

/-- The scored entry for (player `j`, question `q`): `none` when `j` is
not a participant, `some e` with `e` the `scoredQuestions` lookup
otherwise. -/
def scoredEntryOf (s : TState) (j q : String) : Option (Option ℚ) :=
  (lookupKV s.participants j).map (fun p => lookupKV (p.scoredQuestions.getD []) q)

/-- The per-participant scoring invariant of the data model: the score
map has no duplicate keys and the running total is the sum of its
values. -/
def ScoredInv (p : Participant) : Prop :=
  NodupKeys (p.scoredQuestions.getD []) ∧ p.score = sumValues (p.scoredQuestions.getD [])

/-! ### Dictionary lemmas -/

/-- A trivial scoring function for concrete examples. -/
def csZero : CalcScore := fun _ _ _ _ => 0

/-- A base session record for concrete examples (all fields empty/false). -/
def baseState : TState where
  questions := []
  currentQuestionUid := none
  currentQuestionDuration := none
  questionStart := none
  paused := false
  stopped := false
  pausedRemainingTime := none
  pausedAt := none
  isDiffered := false
  linkedQuizId := none
  participants := []
  answers := none
  socketToJoueur := []
  askedQuestions := []
  statut := none
  isTournamentMode := false
  timerStatus := none
  previousQuestionUid := none
  timer := false
  intervalTimer := false
  timerRef := false

/-- Concrete session for the C1 witness: one 20-second question started
at t = 100 ms, one connected participant. -/
def answerSessionW1 : TState :=
  { baseState with
      questions := [⟨"q1", some 20⟩], currentQuestionUid := some "q1",
      currentQuestionDuration := some 20, questionStart := some 100,
      participants := [("j1", ⟨"j1", "Alice", "cat", 0, false, none⟩)],
      socketToJoueur := [("s1", "j1")] }

/-- Concrete session for the C9 witness: a stopped session. -/
def answerSessionW9 : TState :=
  { baseState with
      questions := [⟨"q9", some 10⟩], currentQuestionUid := some "q9",
      currentQuestionDuration := some 10, questionStart := some 100,
      stopped := true,
      participants := [("j9", ⟨"j9", "Bob", "dog", 0, false, none⟩)],
      socketToJoueur := [("s9", "j9")] }

/-- Scoring function for the C2 witness: the stored score is the
submission's client timestamp, so the two submissions are
distinguishable. -/
def csStamp : CalcScore := fun _ a _ _ => a.clientTimestamp

/-- Concrete session for the C2 witness: one question, one participant. -/
def scoreSessionW2 : TState :=
  { baseState with
      questions := [⟨"q1", some 20⟩],
      participants := [("j1", ⟨"j1", "Ana", "owl", 0, false, none⟩)] }

/-- The two submissions of the C2 witness: same player, same question,
different answers (client timestamps 5 and 9). -/
def subsW2 : List Submission :=
  [⟨"j1", ⟨"q1", some 20⟩, Sum.inl 0, 5, 0⟩,
   ⟨"j1", ⟨"q1", some 20⟩, Sum.inl 2, 9, 0⟩]

/-- Concrete stopped session for the C6 witness. -/
def stoppedSessionW6 : TState := { baseState with stopped := true }

/-- A paused session with a stored positive remaining time, for the C3
counterexample. -/
def pausedSessionC3 : TState :=
  { baseState with
      questions := [⟨"q1", some 20⟩], currentQuestionUid := some "q1",
      currentQuestionDuration := some 20, questionStart := some 0,
      paused := true, pausedRemainingTime := some 5, pausedAt := some 1000 }

/-- Concrete paused session for the C3 witness. -/
def pausedSessionW3 : TState :=
  { baseState with
      questions := [⟨"q3", some 30⟩], currentQuestionUid := some "q3",
      currentQuestionDuration := some 30, questionStart := some 0,
      paused := true, pausedRemainingTime := some 7, pausedAt := some 500 }

/-- Initial active session for the C4 counterexample; it satisfies the
claimed invariant (active, no stored remaining time). -/
def timerSessionC4 : TState :=
  { baseState with
      questions := [⟨"q4", some 20⟩], currentQuestionUid := some "q4",
      currentQuestionDuration := some 20, questionStart := some 0 }

/-- The session after pausing `timerSessionC4` at 3000 ms with an explicit
17 s override. -/
def pausedC4 : TState :=
  { timerSessionC4 with
      paused := true, stopped := false,
      pausedRemainingTime := some 17, pausedAt := some 3000 }

/-- Fresh session for the C4 witness. -/
def timerSessionW4 : TState :=
  { baseState with
      questions := [⟨"q5", some 15⟩], currentQuestionUid := some "q5",
      currentQuestionDuration := some 15, questionStart := some 0 }

/-- Concrete quiz-linked session for the C10 witness. -/
def questionSessionW10 : TState :=
  { baseState with
      questions := [⟨"qa", some 20⟩, ⟨"qb", none⟩],
      linkedQuizId := some "quiz1" }

/-- Concrete session for the C5 counterexample. -/
def endSessionC5 : TState :=
  { baseState with
      participants := [("j5", ⟨"j5", "Eve", "fox", 30, false, some [("q1", 30)]⟩)] }

/-- The remaining time `pause` stores: the explicit override when
positive, else `max(0, duration − elapsed)`, rounded to 0.1 s. -/
def pauseStoredTime (now dur qs : ℚ) (rt : Option ℚ) : ℚ :=
  roundTenth (match rt with
    | some r => if 0 < r then r else max 0 (dur - (now - qs) / 1000)
    | none => max 0 (dur - (now - qs) / 1000))

/-- Concrete active session for the C8 counterexample: 10 s allowance,
question started at t = 0, pause requested at t = 3000 ms. -/
def pauseSessionC8 : TState :=
  { baseState with
      questions := [⟨"q8", some 10⟩], currentQuestionUid := some "q8",
      currentQuestionDuration := some 10, questionStart := some 0 }

/-- Concrete already-paused session for the C8 witness. -/
def pauseSessionW8 : TState :=
  { baseState with
      currentQuestionDuration := some 12, questionStart := some 50,
      paused := true, pausedRemainingTime := some 4 }

/-- Active session with both countdown timers armed and 1 s remaining,
for the C7 analysis. -/
def tickSessionC7 : TState :=
  { baseState with
      questions := [⟨"q7", some 1⟩], currentQuestionUid := some "q7",
      currentQuestionDuration := some 1, questionStart := some 0,
      timer := true, intervalTimer := true, timerRef := true }

theorem lookupKV_setKV_self {α : Type} (m : List (String × α)) (k : String) (v : α) :
    lookupKV (setKV m k v) k = some v := by
  induction m with
  | nil => simp [setKV, lookupKV]
  | cons hd t ih =>
    obtain ⟨k', v'⟩ := hd
    by_cases hk : k' = k
    · simp [setKV, hk, lookupKV]
    · simp [setKV, hk, lookupKV, ih]

theorem lookupKV_setKV_ne {α : Type} (m : List (String × α)) (k k' : String) (v : α)
    (h : k' ≠ k) : lookupKV (setKV m k v) k' = lookupKV m k' := by
  have h' : ¬(k = k') := fun he => h he.symm
  induction m with
  | nil => simp [setKV, lookupKV, h']
  | cons hd t ih =>
    obtain ⟨k₀, v₀⟩ := hd
    by_cases hk : k₀ = k
    · subst hk
      simp [setKV, lookupKV, h']
    · simp [setKV, hk, lookupKV, ih]

theorem lookupKV_eq_none_iff {α : Type} (m : List (String × α)) (k : String) :
    lookupKV m k = none ↔ k ∉ keysOf m := by
  induction m with
  | nil => simp [lookupKV, keysOf]
  | cons hd t ih =>
    obtain ⟨k₀, v₀⟩ := hd
    by_cases hk : k₀ = k
    · subst hk
      simp [lookupKV, keysOf]
    · rw [keysOf]
      simp only [List.map_cons, List.mem_cons]
      rw [lookupKV]
      simp only [hk, if_false]
      rw [ih, keysOf]
      constructor
      · intro hn hor
        rcases hor with hor | hor
        · exact hk hor.symm
        · exact hn hor
      · intro hn hmem
        exact hn (Or.inr hmem)

theorem mem_keysOf_of_lookup_isSome {α : Type} (m : List (String × α)) (k : String)
    (h : (lookupKV m k).isSome) : k ∈ keysOf m := by
  by_contra hmem
  rw [← lookupKV_eq_none_iff] at hmem
  simp [hmem] at h

theorem keysOf_nil {α : Type} : keysOf ([] : List (String × α)) = [] := rfl

theorem keysOf_cons {α : Type} (k : String) (v : α) (t : List (String × α)) :
    keysOf ((k, v) :: t) = k :: keysOf t := rfl

theorem keysOf_setKV_mem {α : Type} (m : List (String × α)) (k : String) (v : α)
    (h : k ∈ keysOf m) : keysOf (setKV m k v) = keysOf m := by
  induction m with
  | nil => simp [keysOf] at h
  | cons hd t ih =>
    obtain ⟨k₀, v₀⟩ := hd
    by_cases hk : k₀ = k
    · subst hk
      simp [setKV, keysOf_cons]
    · have ht : k ∈ keysOf t := by
        rcases (by simpa [keysOf_cons] using h : k = k₀ ∨ k ∈ keysOf t) with he | ht
        · exact absurd he.symm hk
        · exact ht
      rw [setKV]
      simp only [hk, if_false, keysOf_cons, ih ht]

theorem keysOf_setKV_not_mem {α : Type} (m : List (String × α)) (k : String) (v : α)
    (h : k ∉ keysOf m) : keysOf (setKV m k v) = keysOf m ++ [k] := by
  induction m with
  | nil => simp [setKV, keysOf]
  | cons hd t ih =>
    obtain ⟨k₀, v₀⟩ := hd
    by_cases hk : k₀ = k
    · exact absurd (by simp [keysOf_cons, hk]) h
    · have ht : k ∉ keysOf t := fun hmem => h (by simp [keysOf_cons, hmem])
      rw [setKV]
      simp only [hk, if_false, keysOf_cons, ih ht, List.cons_append]

theorem nodupKeys_setKV {α : Type} (m : List (String × α)) (k : String) (v : α)
    (h : NodupKeys m) : NodupKeys (setKV m k v) := by
  by_cases hmem : k ∈ keysOf m
  · unfold NodupKeys
    rw [keysOf_setKV_mem m k v hmem]
    exact h
  · unfold NodupKeys
    rw [keysOf_setKV_not_mem m k v hmem]
    simpa [List.nodup_append] using ⟨h, hmem⟩

/-! ### Step lemmas for the accept path -/

theorem recordAnswer_questions (cs : CalcScore) (s : TState) (j uid : String)
    (q : Question) (a : AnswerVal) (ct qs : ℚ) :
    (recordAnswerAndScore cs s j uid q a ct qs).1.questions = s.questions := by
  unfold recordAnswerAndScore
  cases hl : lookupKV s.participants j <;> simp [hl]

theorem recordAnswer_outcome (cs : CalcScore) (s : TState) (j uid : String)
    (q : Question) (a : AnswerVal) (ct qs : ℚ) :
    (recordAnswerAndScore cs s j uid q a ct qs).2 = .accepted ∨
      (recordAnswerAndScore cs s j uid q a ct qs).2 = .crashed := by
  unfold recordAnswerAndScore
  cases hl : lookupKV s.participants j <;> simp [hl]

theorem recordAnswer_outcome_accepted (cs : CalcScore) (s : TState) (j uid : String)
    (q : Question) (a : AnswerVal) (ct qs : ℚ)
    (h : (lookupKV s.participants j).isSome) :
    (recordAnswerAndScore cs s j uid q a ct qs).2 = .accepted := by
  unfold recordAnswerAndScore
  cases hl : lookupKV s.participants j with
  | none => rw [hl] at h; simp at h
  | some p => simp [hl]

theorem recordAnswer_participants_isSome (cs : CalcScore) (s : TState) (j uid : String)
    (q : Question) (a : AnswerVal) (ct qs : ℚ) (j' : String) :
    (lookupKV (recordAnswerAndScore cs s j uid q a ct qs).1.participants j').isSome =
      (lookupKV s.participants j').isSome := by
  unfold recordAnswerAndScore
  cases hl : lookupKV s.participants j with
  | none => simp [hl]
  | some p =>
    by_cases hj : j' = j
    · subst hj
      simp [hl, lookupKV_setKV_self]
    · simp [hl, lookupKV_setKV_ne _ _ _ _ hj]

theorem recordAnswer_participants_ne (cs : CalcScore) (s : TState) (j uid : String)
    (q : Question) (a : AnswerVal) (ct qs : ℚ) (j' : String) (hj : j' ≠ j) :
    lookupKV (recordAnswerAndScore cs s j uid q a ct qs).1.participants j' =
      lookupKV s.participants j' := by
  unfold recordAnswerAndScore
  cases hl : lookupKV s.participants j with
  | none => simp [hl]
  | some p => simp [hl, lookupKV_setKV_ne _ _ _ _ hj]

theorem recordAnswer_participants_self (cs : CalcScore) (s : TState) (j uid : String)
    (q : Question) (a : AnswerVal) (ct qs : ℚ) (p : Participant)
    (h : lookupKV s.participants j = some p) :
    lookupKV (recordAnswerAndScore cs s j uid q a ct qs).1.participants j =
      some { p with
              scoredQuestions :=
                some (setKV (p.scoredQuestions.getD []) uid (cs q ⟨a, ct⟩ qs s.questions.length)),
              score := sumValues (setKV (p.scoredQuestions.getD []) uid (cs q ⟨a, ct⟩ qs s.questions.length)) } := by
  unfold recordAnswerAndScore
  simp [h, lookupKV_setKV_self]

/-! ### Claim C1: answer admission -/

/-- All outcomes of `handleTournamentAnswer` are either a silent drop, a
rejection receipt, or the accept path's result. -/
theorem handleAnswer_cases (cs : CalcScore) (now : ℚ) (state : TState)
    (sid quid : String) (a : AnswerVal) (ct : ℚ) :
    (handleTournamentAnswer cs now state sid quid a ct).1 = state ∨
      ((handleTournamentAnswer cs now state sid quid a ct).2 = .accepted ∨
        (handleTournamentAnswer cs now state sid quid a ct).2 = .crashed) := by
  unfold handleTournamentAnswer
  cases hl : lookupKV state.socketToJoueur sid with
  | none => simp
  | some j =>
    cases hf : state.questions.find? (fun q => state.currentQuestionUid == some q.uid) with
    | none => simp
    | some q =>
      by_cases hu : q.uid ≠ quid
      · simp [hu]
      · simp only [hu, if_true, if_false, ite_not]
        cases hqs : truthyQ state.questionStart with
        | none => simp
        | some t0 =>
          by_cases hst : state.stopped
          · simp [hst]
          · by_cases hp : state.paused
            · simp [hst, hp, recordAnswer_outcome]
            · by_cases hc1 : now - t0 > timeAllowedOf state.currentQuestionDuration q.temps * 1000 + 500
              · simp [hst, hp, hc1]
              · by_cases hc2 : ct - t0 > timeAllowedOf state.currentQuestionDuration q.temps * 1000
                · simp [hst, hp, hc1, hc2]
                · simp [hst, hp, hc1, hc2, recordAnswer_outcome]

/-- Claim C1: for every answer submission whose player identity, question
and `questionStart` resolve (and whose player has a participant record):
a stopped session rejects with reason `"stopped"`; a non-paused session
rejects with reason `"late"` exactly when the server-observed elapsed
time exceeds the allowed duration (ms) plus the 500 ms grace period or
the client-reported elapsed time exceeds the allowed duration, and
otherwise accepts; a paused session accepts regardless of elapsed time.
The allowed duration is `currentQuestionDuration`, else the question's
intrinsic `temps`, else 20 s (JS falsy fallback, as in the source). -/
theorem tournament_answer_admission (calcScore : CalcScore) (now : ℚ) (state : TState)
    (socketId questionUid : String) (answerIdx : AnswerVal) (clientTimestamp : ℚ)
    (joueurId : String) (question : Question) (questionStart : ℚ)
    (hj : lookupKV state.socketToJoueur socketId = some joueurId)
    (hq : state.questions.find? (fun q => state.currentQuestionUid == some q.uid) = some question)
    (huid : question.uid = questionUid)
    (hqs : truthyQ state.questionStart = some questionStart)
    (hpart : (lookupKV state.participants joueurId).isSome) :
    (state.stopped = true →
       (handleTournamentAnswer calcScore now state socketId questionUid answerIdx clientTimestamp).2 =
         .rejected "stopped")
    ∧ (state.stopped = false → state.paused = false →
       ((handleTournamentAnswer calcScore now state socketId questionUid answerIdx clientTimestamp).2 =
           .rejected "late" ↔
         (now - questionStart >
             timeAllowedOf state.currentQuestionDuration question.temps * 1000 + 500
          ∨ clientTimestamp - questionStart >
             timeAllowedOf state.currentQuestionDuration question.temps * 1000)))
    ∧ (state.stopped = false → state.paused = false →
       ¬(now - questionStart >
             timeAllowedOf state.currentQuestionDuration question.temps * 1000 + 500
          ∨ clientTimestamp - questionStart >
             timeAllowedOf state.currentQuestionDuration question.temps * 1000) →
       (handleTournamentAnswer calcScore now state socketId questionUid answerIdx clientTimestamp).2 =
         .accepted)
    ∧ (state.stopped = false → state.paused = true →
       (handleTournamentAnswer calcScore now state socketId questionUid answerIdx clientTimestamp).2 =
         .accepted)
    ∧ (∀ d, truthyQ state.currentQuestionDuration = some d →
        timeAllowedOf state.currentQuestionDuration question.temps = d)
    ∧ (truthyQ state.currentQuestionDuration = none → ∀ t, truthyQ question.temps = some t →
        timeAllowedOf state.currentQuestionDuration question.temps = t)
    ∧ (truthyQ state.currentQuestionDuration = none → truthyQ question.temps = none →
        timeAllowedOf state.currentQuestionDuration question.temps = 20) := by
  subst huid
  unfold handleTournamentAnswer
  simp only [hj, hq, hqs, ne_eq, not_true_eq_false, if_false]
  refine ⟨?_, ?_, ?_, ?_, ?_, ?_, ?_⟩
  · intro hst
    simp [hst]
  · intro hst hp
    by_cases hc1 : now - questionStart >
        timeAllowedOf state.currentQuestionDuration question.temps * 1000 + 500
    · simp [hst, hp, hc1]
    · by_cases hc2 : clientTimestamp - questionStart >
          timeAllowedOf state.currentQuestionDuration question.temps * 1000
      · simp [hst, hp, hc1, hc2]
      · have hacc := recordAnswer_outcome_accepted calcScore state joueurId question.uid
          question answerIdx clientTimestamp questionStart hpart
        simp [hst, hp, hc1, hc2, hacc]
  · intro hst hp hcond
    push_neg at hcond
    have hacc := recordAnswer_outcome_accepted calcScore state joueurId question.uid
      question answerIdx clientTimestamp questionStart hpart
    simp [hst, hp, not_lt.mpr hcond.1, not_lt.mpr hcond.2, hacc]
  · intro hst hp
    have hacc := recordAnswer_outcome_accepted calcScore state joueurId question.uid
      question answerIdx clientTimestamp questionStart hpart
    simp [hst, hp, hacc]
  · intro d hd
    simp [timeAllowedOf, hd]
  · intro hd t ht
    simp [timeAllowedOf, hd, ht]
  · intro hd ht
    simp [timeAllowedOf, hd, ht]

/-- Witness for C1: at server time 20700 ms (elapsed 20.6 s > 20 s + 0.5 s
grace) the answer is rejected with reason `"late"`. -/
theorem tournament_answer_admission_witness :
    (handleTournamentAnswer csZero 20700 answerSessionW1 "s1" "q1" (Sum.inl 0) 100).2 =
      .rejected "late" := by
  have h := tournament_answer_admission csZero 20700 answerSessionW1 "s1" "q1" (Sum.inl 0) 100
    "j1" ⟨"q1", some 20⟩ 100 (by decide) (by decide) (by decide) (by decide) (by decide)
  refine (h.2.1 rfl rfl).mpr (Or.inl ?_)
  norm_num [answerSessionW1, baseState, timeAllowedOf, truthyQ]

/-! ### Claim C9: rejection paths mutate nothing -/

/-- Claim C9: every rejection path of the answer handler (unresolved
player or session, question not found, uid mismatch, missing
`questionStart`, stopped, or late) returns before any mutation — the
resulting state is exactly the input state. -/
theorem rejection_paths_mutate_nothing (calcScore : CalcScore) (now : ℚ) (state : TState)
    (socketId questionUid : String) (answerIdx : AnswerVal) (clientTimestamp : ℚ)
    (h1 : (handleTournamentAnswer calcScore now state socketId questionUid answerIdx clientTimestamp).2 ≠
      .accepted)
    (h2 : (handleTournamentAnswer calcScore now state socketId questionUid answerIdx clientTimestamp).2 ≠
      .crashed) :
    (handleTournamentAnswer calcScore now state socketId questionUid answerIdx clientTimestamp).1 =
      state := by
  rcases handleAnswer_cases calcScore now state socketId questionUid answerIdx clientTimestamp with
    h | h | h
  · exact h
  · exact absurd h h1
  · exact absurd h h2

/-- Witness for C9: an answer to a stopped session is rejected
("stopped") and the session is left exactly unchanged. -/
theorem rejection_paths_mutate_nothing_witness :
    (handleTournamentAnswer csZero 500 answerSessionW9 "s9" "q9" (Sum.inl 1) 200).1 =
      answerSessionW9 :=
  rejection_paths_mutate_nothing csZero 500 answerSessionW9 "s9" "q9" (Sum.inl 1) 200
    (by decide) (by decide)

/-! ### Claim C2: score overwrite and total invariants -/

theorem applySub_questions (cs : CalcScore) (s : TState) (sub : Submission) :
    (applySub cs s sub).questions = s.questions :=
  recordAnswer_questions cs s sub.joueurId sub.question.uid sub.question
    sub.answerIdx sub.clientTimestamp sub.questionStart

theorem applySub_participants_isSome (cs : CalcScore) (s : TState) (sub : Submission)
    (j : String) :
    (lookupKV (applySub cs s sub).participants j).isSome =
      (lookupKV s.participants j).isSome :=
  recordAnswer_participants_isSome cs s sub.joueurId sub.question.uid sub.question
    sub.answerIdx sub.clientTimestamp sub.questionStart j

theorem applySub_scoredInv (cs : CalcScore) (s : TState) (sub : Submission)
    (h0 : ∀ j p, lookupKV s.participants j = some p → ScoredInv p) :
    ∀ j p, lookupKV (applySub cs s sub).participants j = some p → ScoredInv p := by
  intro j p hp
  by_cases hj : j = sub.joueurId
  · subst hj
    cases h0l : lookupKV s.participants sub.joueurId with
    | none =>
      have hnone : lookupKV (applySub cs s sub).participants sub.joueurId = none := by
        have hs := applySub_participants_isSome cs s sub sub.joueurId
        rw [h0l] at hs
        cases hl : lookupKV (applySub cs s sub).participants sub.joueurId with
        | none => rfl
        | some _ => rw [hl] at hs; simp at hs
      rw [hnone] at hp
      cases hp
    | some p0 =>
      rw [applySub, recordAnswer_participants_self cs s sub.joueurId sub.question.uid
        sub.question sub.answerIdx sub.clientTimestamp sub.questionStart p0 h0l] at hp
      injection hp with hp
      subst hp
      constructor
      · exact nodupKeys_setKV _ _ _ (h0 _ _ h0l).1
      · rfl
  · rw [applySub, recordAnswer_participants_ne cs s sub.joueurId sub.question.uid sub.question
      sub.answerIdx sub.clientTimestamp sub.questionStart j hj] at hp
    exact h0 _ _ hp

theorem applySub_scoredEntry_frame (cs : CalcScore) (s : TState) (sub : Submission)
    (j q : String) (h : ¬(j = sub.joueurId ∧ q = sub.question.uid)) :
    scoredEntryOf (applySub cs s sub) j q = scoredEntryOf s j q := by
  by_cases hj : j = sub.joueurId
  · subst hj
    have hq : q ≠ sub.question.uid := fun he => h ⟨rfl, he⟩
    cases h0l : lookupKV s.participants sub.joueurId with
    | none =>
      have hnone : lookupKV (applySub cs s sub).participants sub.joueurId = none := by
        have hs := applySub_participants_isSome cs s sub sub.joueurId
        rw [h0l] at hs
        cases hl : lookupKV (applySub cs s sub).participants sub.joueurId with
        | none => rfl
        | some _ => rw [hl] at hs; simp at hs
      rw [scoredEntryOf, scoredEntryOf, hnone, h0l]
    | some p0 =>
      rw [scoredEntryOf, scoredEntryOf, h0l,
        applySub, recordAnswer_participants_self cs s sub.joueurId sub.question.uid
          sub.question sub.answerIdx sub.clientTimestamp sub.questionStart p0 h0l]
      rw [Option.map_some']
      rw [show ({ p0 with
          scoredQuestions :=
            some (setKV (p0.scoredQuestions.getD []) sub.question.uid
              (cs sub.question ⟨sub.answerIdx, sub.clientTimestamp⟩ sub.questionStart s.questions.length)),
          score := sumValues (setKV (p0.scoredQuestions.getD []) sub.question.uid
              (cs sub.question ⟨sub.answerIdx, sub.clientTimestamp⟩ sub.questionStart s.questions.length)) } :
          Participant).scoredQuestions.getD [] =
        setKV (p0.scoredQuestions.getD []) sub.question.uid
          (cs sub.question ⟨sub.answerIdx, sub.clientTimestamp⟩ sub.questionStart s.questions.length)
        from rfl]
      rw [lookupKV_setKV_ne _ _ _ _ hq]
      rfl
  · rw [scoredEntryOf, scoredEntryOf,
      applySub, recordAnswer_participants_ne cs s sub.joueurId sub.question.uid sub.question
        sub.answerIdx sub.clientTimestamp sub.questionStart j hj]

theorem applySub_scoredEntry_self (cs : CalcScore) (s : TState) (sub : Submission)
    (h : (lookupKV s.participants sub.joueurId).isSome) :
    scoredEntryOf (applySub cs s sub) sub.joueurId sub.question.uid =
      some (some (scoreOfSub cs s.questions.length sub)) := by
  cases h0l : lookupKV s.participants sub.joueurId with
  | none => rw [h0l] at h; simp at h
  | some p0 =>
    rw [scoredEntryOf, applySub, recordAnswer_participants_self cs s sub.joueurId
      sub.question.uid sub.question sub.answerIdx sub.clientTimestamp sub.questionStart p0 h0l]
    rw [Option.map_some']
    rw [show ({ p0 with
        scoredQuestions :=
          some (setKV (p0.scoredQuestions.getD []) sub.question.uid
            (cs sub.question ⟨sub.answerIdx, sub.clientTimestamp⟩ sub.questionStart s.questions.length)),
        score := sumValues (setKV (p0.scoredQuestions.getD []) sub.question.uid
            (cs sub.question ⟨sub.answerIdx, sub.clientTimestamp⟩ sub.questionStart s.questions.length)) } :
        Participant).scoredQuestions.getD [] =
      setKV (p0.scoredQuestions.getD []) sub.question.uid
        (cs sub.question ⟨sub.answerIdx, sub.clientTimestamp⟩ sub.questionStart s.questions.length)
      from rfl]
    rw [lookupKV_setKV_self]
    rfl

theorem lastSubFor_cons (sub : Submission) (rest : List Submission) (j q : String) :
    lastSubFor (sub :: rest) j q =
      match lastSubFor rest j q with
      | some l => some l
      | none =>
        if sub.joueurId == j && sub.question.uid == q then some sub else none := rfl

theorem applySubs_cons (cs : CalcScore) (s : TState) (sub : Submission)
    (rest : List Submission) :
    applySubs cs s (sub :: rest) = applySubs cs (applySub cs s sub) rest := rfl

/-- Master induction for sequences of accepted submissions: the question
list is untouched, participant presence is preserved, the per-participant
scoring invariant is maintained, entries for untouched (player, question)
pairs are framed, and each touched pair's entry equals the score of the
most recent submission for it. -/
theorem applySubs_spec (cs : CalcScore) (subs : List Submission) : ∀ (s0 : TState),
    (∀ j p, lookupKV s0.participants j = some p → ScoredInv p) →
    (∀ sub ∈ subs, (lookupKV s0.participants sub.joueurId).isSome) →
    (applySubs cs s0 subs).questions = s0.questions ∧
    (∀ j, (lookupKV (applySubs cs s0 subs).participants j).isSome =
      (lookupKV s0.participants j).isSome) ∧
    (∀ j p, lookupKV (applySubs cs s0 subs).participants j = some p → ScoredInv p) ∧
    (∀ j q, lastSubFor subs j q = none →
      scoredEntryOf (applySubs cs s0 subs) j q = scoredEntryOf s0 j q) ∧
    (∀ j q last, lastSubFor subs j q = some last →
      scoredEntryOf (applySubs cs s0 subs) j q =
        some (some (scoreOfSub cs s0.questions.length last))) := by
  induction subs with
  | nil =>
    intro s0 h0 _
    refine ⟨rfl, fun j => rfl, h0, fun j q _ => rfl, fun j q last hlast => ?_⟩
    simp [lastSubFor] at hlast
  | cons sub rest ih =>
    intro s0 h0 hmem
    have hmemhead : (lookupKV s0.participants sub.joueurId).isSome :=
      hmem sub (List.mem_cons_self sub rest)
    have h0' : ∀ j p, lookupKV (applySub cs s0 sub).participants j = some p → ScoredInv p :=
      applySub_scoredInv cs s0 sub h0
    have hmem' : ∀ x ∈ rest, (lookupKV (applySub cs s0 sub).participants x.joueurId).isSome := by
      intro x hx
      rw [applySub_participants_isSome]
      exact hmem x (List.mem_cons_of_mem _ hx)
    obtain ⟨ihq, ihsome, ihinv, ihframe, ihupd⟩ := ih (applySub cs s0 sub) h0' hmem'
    refine ⟨?_, ?_, ?_, ?_, ?_⟩
    · rw [applySubs_cons, ihq, applySub_questions]
    · intro j
      rw [applySubs_cons, ihsome j, applySub_participants_isSome]
    · intro j p hp
      rw [applySubs_cons] at hp
      exact ihinv j p hp
    · intro j q hlast
      rw [lastSubFor_cons] at hlast
      cases hrest : lastSubFor rest j q with
      | some l => rw [hrest] at hlast; cases hlast
      | none =>
        rw [hrest] at hlast
        have hcond : ¬(sub.joueurId = j ∧ sub.question.uid = q) := by
          by_cases hc : sub.joueurId == j && sub.question.uid == q
          · rw [if_pos hc] at hlast; cases hlast
          · intro hand
            exact hc (by simp [hand.1, hand.2])
        rw [applySubs_cons, ihframe j q hrest,
          applySub_scoredEntry_frame cs s0 sub j q
            (fun hand => hcond ⟨hand.1.symm, hand.2.symm⟩)]
    · intro j q last hlast
      rw [lastSubFor_cons] at hlast
      cases hrest : lastSubFor rest j q with
      | some l =>
        rw [hrest] at hlast
        injection hlast with hlast
        rw [applySubs_cons, ihupd j q l hrest, applySub_questions, hlast]
      | none =>
        rw [hrest] at hlast
        by_cases hc : sub.joueurId == j && sub.question.uid == q
        · rw [if_pos hc] at hlast
          injection hlast with hlast
          subst hlast
          obtain ⟨hc1, hc2⟩ := (Bool.and_eq_true _ _).mp hc
          have hj : sub.joueurId = j := beq_iff_eq.mp hc1
          have hqq : sub.question.uid = q := beq_iff_eq.mp hc2
          subst hj
          subst hqq
          rw [applySubs_cons, ihframe sub.joueurId sub.question.uid hrest,
            applySub_scoredEntry_self cs s0 sub hmemhead]
        · rw [if_neg hc] at hlast
          cases hlast

/-- Claim C2: after any sequence of accepted submissions there is exactly
one scored entry per answered (player, question) pair, equal to the score
computed from the most recent submission for that pair, and every
participant's running total equals the sum of their `scoredQuestions`
values. -/
theorem scoring_overwrites_and_totals (calcScore : CalcScore) (s0 : TState)
    (subs : List Submission)
    (h0 : ∀ j p, lookupKV s0.participants j = some p → ScoredInv p)
    (hmem : ∀ sub ∈ subs, (lookupKV s0.participants sub.joueurId).isSome) :
    (∀ j p, lookupKV (applySubs calcScore s0 subs).participants j = some p →
       NodupKeys (p.scoredQuestions.getD []) ∧
         p.score = sumValues (p.scoredQuestions.getD []))
    ∧ (∀ j q last, lastSubFor subs j q = some last →
       scoredEntryOf (applySubs calcScore s0 subs) j q =
         some (some (scoreOfSub calcScore s0.questions.length last)))
    ∧ (∀ j q last p, lastSubFor subs j q = some last →
       lookupKV (applySubs calcScore s0 subs).participants j = some p →
       ((p.scoredQuestions.getD []).map Prod.fst).count q = 1) := by
  obtain ⟨_, _, hinv, _, hupd⟩ := applySubs_spec calcScore subs s0 h0 hmem
  refine ⟨fun j p hp => hinv j p hp, fun j q last h => hupd j q last h, ?_⟩
  intro j q last p hlast hp
  have hent := hupd j q last hlast
  rw [scoredEntryOf, hp, Option.map_some'] at hent
  injection hent with hent
  have hmemk : q ∈ keysOf (p.scoredQuestions.getD []) :=
    mem_keysOf_of_lookup_isSome _ _ (by rw [hent]; rfl)
  have hnd := (hinv j p hp).1
  exact List.count_eq_one_of_mem hnd hmemk

/-- Witness for C2: after both submissions the scored entry for
("j1", "q1") reflects the second submission (score 9). -/
theorem scoring_overwrites_and_totals_witness :
    scoredEntryOf (applySubs csStamp scoreSessionW2 subsW2) "j1" "q1" = some (some 9) := by
  have h0 : ∀ j p, lookupKV scoreSessionW2.participants j = some p → ScoredInv p := by
    intro j p hp
    rw [show scoreSessionW2.participants =
        [("j1", ⟨"j1", "Ana", "owl", 0, false, none⟩)] from rfl] at hp
    rw [lookupKV] at hp
    split at hp
    · injection hp with hp
      subst hp
      exact ⟨by simp [NodupKeys, keysOf], rfl⟩
    · cases hp
  have hm : ∀ sub ∈ subsW2, (lookupKV scoreSessionW2.participants sub.joueurId).isSome := by
    decide
  have h := scoring_overwrites_and_totals csStamp scoreSessionW2 subsW2 h0 hm
  have hl : lastSubFor subsW2 "j1" "q1" = some ⟨"j1", ⟨"q1", some 20⟩, Sum.inl 2, 9, 0⟩ := by
    decide
  have h2 := h.2.1 "j1" "q1" _ hl
  rw [h2]
  rfl

/-! ### Claim C6: stop is idempotent -/

/-- Claim C6: `setTimer(0)` on an already-stopped session is a pure
no-op — the state is returned unchanged (every field, including timer
handles) and no event is emitted, for either value of `forceActive`. -/
theorem stop_is_idempotent (now : ℚ) (code : String) (s : TState) (forceActive : Bool)
    (h : s.stopped = true) :
    triggerTournamentTimerSet now code s (some 0) forceActive = (s, []) := by
  unfold triggerTournamentTimerSet
  by_cases hd : s.isDiffered
  · simp [hd]
  · simp [hd, h]

/-- Witness for C6: a second stop call on a stopped session returns the
state unchanged and emits nothing. -/
theorem stop_is_idempotent_witness :
    triggerTournamentTimerSet 1000 "X" stoppedSessionW6 (some 0) false =
      (stoppedSessionW6, []) :=
  stop_is_idempotent 1000 "X" stoppedSessionW6 false rfl

/-! ### Claim C3: force resume uses pausedRemainingTime -/

/-- Counterexample for C3 as stated: with `timeLeftSeconds = 0` and
`forceActive = true` on a paused session whose stored
`pausedRemainingTime` is 5, the session does NOT become Active with
duration 5 — the `timeLeft === 0` stop branch runs first, so it becomes
Stopped with duration 0 and the stored remaining time cleared. -/
theorem force_resume_timeLeft_zero_stops :
    ((triggerTournamentTimerSet 2000 "X" pausedSessionC3 (some 0) true).1.stopped = true)
    ∧ ((triggerTournamentTimerSet 2000 "X" pausedSessionC3 (some 0) true).1.paused = false)
    ∧ ((triggerTournamentTimerSet 2000 "X" pausedSessionC3 (some 0) true).1.currentQuestionDuration
        = some 0)
    ∧ ((triggerTournamentTimerSet 2000 "X" pausedSessionC3 (some 0) true).1.pausedRemainingTime
        = none) := by
  refine ⟨?_, ?_, ?_, ?_⟩ <;> decide

/-- Field projections of the common start tail when the effective time is
positive. -/
theorem startTimerTail_fields (now : ℚ) (code : String) (s3 : TState) (tl : ℚ)
    (f : Bool) (h : 0 < tl) :
    ((startTimerTail now code s3 tl f).1.paused = false)
    ∧ ((startTimerTail now code s3 tl f).1.stopped = false)
    ∧ ((startTimerTail now code s3 tl f).1.currentQuestionDuration = some tl)
    ∧ ((startTimerTail now code s3 tl f).1.pausedRemainingTime = s3.pausedRemainingTime) := by
  unfold startTimerTail
  rw [if_neg (not_le.mpr h)]
  exact ⟨rfl, rfl, rfl, rfl⟩

/-- Shared resume analysis: force-activating a paused session with a
stored positive remaining time makes it active with that duration, and
keeps `pausedRemainingTime` stored (the source deliberately does not
clear it). -/
theorem forceResume_fields (now : ℚ) (code : String) (s : TState)
    (timeLeft : Option ℚ) (r : ℚ) (u : String) (q : Question)
    (hd : s.isDiffered = false)
    (hp : s.paused = true)
    (hr : s.pausedRemainingTime = some r)
    (hrpos : 0 < r)
    (htl : timeLeft ≠ some 0)
    (hu : truthyS s.currentQuestionUid = some u)
    (hq : s.questions.find? (fun q' => s.currentQuestionUid == some q'.uid) = some q) :
    ((triggerTournamentTimerSet now code s timeLeft true).1.paused = false)
    ∧ ((triggerTournamentTimerSet now code s timeLeft true).1.stopped = false)
    ∧ ((triggerTournamentTimerSet now code s timeLeft true).1.currentQuestionDuration = some r)
    ∧ ((triggerTournamentTimerSet now code s timeLeft true).1.pausedRemainingTime
        = s.pausedRemainingTime) := by
  have hpos : posOpt (some r) = true := by simp [posOpt, hrpos]
  unfold triggerTournamentTimerSet
  rw [if_neg (by simp [hd])]
  rw [if_neg (fun hand => htl hand.1)]
  rw [if_neg htl]
  simp only [clearAllTimers, hu, hq, hp, hr, hpos, Bool.and_self, Bool.and_true,
    Bool.true_and, Option.getD_some, Bool.not_true, Bool.false_eq_true, if_false, if_true]
  exact startTimerTail_fields _ _ _ _ _ hrpos

/-- Claim C3 (amended): for every paused, non-deferred session with a
stored positive `pausedRemainingTime` and a resolvable current question,
`setTimer` with `forceActive = true` and any NONZERO `timeLeftSeconds`
(including an absent one) makes the session Active with duration equal to
`pausedRemainingTime`: the caller-supplied value is ignored, so no caller
can extend the remaining time by passing a larger value on resume.
(`timeLeftSeconds = 0` instead stops the session — see the
counterexample.) -/
theorem force_resume_uses_pausedRemainingTime (now : ℚ) (code : String) (s : TState)
    (timeLeft : Option ℚ) (r : ℚ) (u : String) (q : Question)
    (hd : s.isDiffered = false)
    (hp : s.paused = true)
    (hr : s.pausedRemainingTime = some r)
    (hrpos : 0 < r)
    (htl : timeLeft ≠ some 0)
    (hu : truthyS s.currentQuestionUid = some u)
    (hq : s.questions.find? (fun q' => s.currentQuestionUid == some q'.uid) = some q) :
    ((triggerTournamentTimerSet now code s timeLeft true).1.paused = false)
    ∧ ((triggerTournamentTimerSet now code s timeLeft true).1.stopped = false)
    ∧ ((triggerTournamentTimerSet now code s timeLeft true).1.currentQuestionDuration = some r) := by
  obtain ⟨h1, h2, h3, _⟩ :=
    forceResume_fields now code s timeLeft r u q hd hp hr hrpos htl hu hq
  exact ⟨h1, h2, h3⟩

/-- Witness for C3 (amended): resuming with a larger caller-supplied value
(999) still yields an Active session with duration 7, the stored
`pausedRemainingTime`. -/
theorem force_resume_uses_pausedRemainingTime_witness :
    ((triggerTournamentTimerSet 9000 "X" pausedSessionW3 (some 999) true).1.paused = false)
    ∧ ((triggerTournamentTimerSet 9000 "X" pausedSessionW3 (some 999) true).1.stopped = false)
    ∧ ((triggerTournamentTimerSet 9000 "X" pausedSessionW3 (some 999) true).1.currentQuestionDuration
        = some 7) :=
  force_resume_uses_pausedRemainingTime 9000 "X" pausedSessionW3 (some 999) 7 "q3"
    ⟨"q3", some 30⟩ rfl rfl rfl (by norm_num) (by decide) (by decide) (by decide)

/-! ### Claim C4: timer-state invariant -/

theorem winv_startTimerTail (now : ℚ) (code : String) (s3 : TState) (tl : ℚ) (f : Bool)
    (h : winv s3 = true) : winv (startTimerTail now code s3 tl f).1 = true := by
  unfold startTimerTail
  split
  · exact h
  · simp [winv]

theorem timerStateCount_of_winv (s : TState) (h : winv s = true) : timerStateCount s = 1 := by
  cases hp : s.paused <;> cases hs : s.stopped <;>
    simp [timerStateCount, winv, hp, hs] at h ⊢

theorem winv_pause (now : ℚ) (s : TState) (rt : Option ℚ) (h : winv s = true) :
    winv (triggerTournamentPause now s rt).1 = true := by
  unfold triggerTournamentPause
  split
  · exact h
  · simp [winv]

theorem winv_setQuestion (s : TState) (i : Int) (l : Option String) (t0 : Option ℚ)
    (tu : Option String) (h : winv s = true) :
    winv (triggerTournamentQuestion s i l t0 tu).1 = true := by
  unfold triggerTournamentQuestion
  cases hres : resolveTarget s i tu with
  | none => exact h
  | some pr =>
    obtain ⟨ti, tq⟩ := pr
    cases tq with
    | some q => simpa [winv] using h
    | none =>
      cases hg : intGet? s.questions ti with
      | none => simpa [winv, hg] using h
      | some q => simpa [winv, hg] using h

theorem winv_setTimer (now : ℚ) (code : String) (s : TState) (tl : Option ℚ) (f : Bool)
    (h : winv s = true) : winv (triggerTournamentTimerSet now code s tl f).1 = true := by
  unfold triggerTournamentTimerSet
  by_cases hd : s.isDiffered = true
  · rw [if_pos hd]
    exact h
  rw [if_neg hd]
  by_cases hdup : tl = some 0 ∧ s.stopped = true
  · rw [if_pos hdup]
    exact h
  rw [if_neg hdup]
  by_cases h0 : tl = some 0
  · rw [if_pos h0]
    simp [winv]
  rw [if_neg h0]
  simp only [clearAllTimers]
  cases hu : truthyS s.currentQuestionUid with
  | none => simpa [winv] using h
  | some u =>
    simp only []
    cases hq : List.find? (fun q => s.currentQuestionUid == some q.uid) s.questions with
    | none => simpa [winv] using h
    | some q =>
      simp only []
      by_cases hf : f = false
      · rw [if_pos (show (!f) = true by simp [hf])]
        have hres : (f && s.paused && posOpt s.pausedRemainingTime) = false := by simp [hf]
        rw [hres]
        simp only [Bool.false_eq_true, if_false]
        by_cases hst : s.stopped = true
        · rw [if_pos hst]
          simpa [winv] using h
        · rw [if_neg hst]
          have hst' : s.stopped = false := by revert hst; cases s.stopped <;> simp
          by_cases hp : s.paused = true
          · rw [if_pos hp]
            simp [winv, hp, hst']
          · rw [if_neg hp]
            apply winv_startTimerTail
            simpa [winv] using h
      · have hf' : f = true := by revert hf; cases f <;> simp
        rw [if_neg (show ¬((!f) = true) by simp [hf'])]
        apply winv_startTimerTail
        simp only [winv, Bool.and_false, Bool.false_and, Bool.not_false, Bool.true_or,
          Bool.or_true, Bool.and_self, Bool.true_and, Bool.and_true]

/-- Apply one operation preserves the weak timer-flag invariant. -/
theorem winv_applyOp (s : TState) (op : Op) (h : winv s = true) :
    winv (applyOp s op) = true := by
  cases op with
  | setQuestion i l t u => exact winv_setQuestion s i l t u h
  | setTimer now code tl f => exact winv_setTimer now code s tl f h
  | pause now r => exact winv_pause now s r h

/-- Claim C4 (amended): starting from any session satisfying it, every
sequence of controller operations preserves the invariant "`paused` and
`stopped` are never both true (so exactly one of {active, paused,
stopped} holds) and paused implies `pausedRemainingTime` is defined".
The converse direction of the claimed "iff" — `pausedRemainingTime`
defined only while paused — does NOT hold on reachable states (see the
counterexample: a forced resume deliberately keeps the stored value). -/
theorem timer_flags_exclusive_invariant (ops : List Op) (s : TState) (h : winv s = true) :
    winv (applyOps s ops) = true ∧ timerStateCount (applyOps s ops) = 1 := by
  have hw : winv (applyOps s ops) = true := by
    induction ops generalizing s with
    | nil => exact h
    | cons op rest ih => exact ih (applyOp s op) (winv_applyOp s op h)
  exact ⟨hw, timerStateCount_of_winv _ hw⟩

theorem roundTenth_seventeen : roundTenth 17 = 17 := by
  rw [roundTenth]
  norm_num [round_ofNat]

theorem pause_timerSessionC4 :
    (triggerTournamentPause 3000 timerSessionC4 (some 17)).1 = pausedC4 := by
  have hR : roundTenth 17 = 17 := roundTenth_seventeen
  simp only [triggerTournamentPause, timerSessionC4, baseState, clearAllTimers, pausedC4]
  norm_num [hR]

/-- Counterexample for C4 as stated: from a state satisfying the
invariant, `pause` (with a 17 s override) followed by
`setTimer(5, forceActive = true)` reaches a state that is Active
(`paused = stopped = false`) while `pausedRemainingTime` is still
`some 17` — the source deliberately keeps it for a later resume — so
"`pausedRemainingTime` is defined iff the session is paused" fails on a
reachable state. -/
theorem resume_leaves_pausedRemainingTime_set :
    (winv timerSessionC4 = true)
    ∧ ((applyOps timerSessionC4
        [Op.pause 3000 (some 17), Op.setTimer 5000 "X" (some 5) true]).paused = false)
    ∧ ((applyOps timerSessionC4
        [Op.pause 3000 (some 17), Op.setTimer 5000 "X" (some 5) true]).stopped = false)
    ∧ ((applyOps timerSessionC4
        [Op.pause 3000 (some 17), Op.setTimer 5000 "X" (some 5) true]).pausedRemainingTime
        = some 17) := by
  have hops : applyOps timerSessionC4
      [Op.pause 3000 (some 17), Op.setTimer 5000 "X" (some 5) true] =
      (triggerTournamentTimerSet 5000 "X"
        ((triggerTournamentPause 3000 timerSessionC4 (some 17)).1) (some 5) true).1 := rfl
  rw [hops, pause_timerSessionC4]
  obtain ⟨h1, h2, h3, h4⟩ :=
    forceResume_fields 5000 "X" pausedC4 (some 5) 17 "q4" ⟨"q4", some 20⟩
      rfl rfl rfl (by norm_num) (by simp) (by decide) (by decide)
  refine ⟨rfl, h1, h2, ?_⟩
  rw [h4]
  rfl

/-- Witness for C4 (amended): after a concrete pause / force-resume /
stop sequence the preserved invariant and the exactly-one-state count
hold. -/
theorem timer_flags_exclusive_invariant_witness :
    winv (applyOps timerSessionW4
      [Op.pause 2000 none, Op.setTimer 4000 "X" none true,
        Op.setTimer 6000 "X" (some 0) false]) = true ∧
    timerStateCount (applyOps timerSessionW4
      [Op.pause 2000 none, Op.setTimer 4000 "X" none true,
        Op.setTimer 6000 "X" (some 0) false]) = 1 :=
  timer_flags_exclusive_invariant
    [Op.pause 2000 none, Op.setTimer 4000 "X" none true,
      Op.setTimer 6000 "X" (some 0) false] timerSessionW4 rfl

/-! ### Claim C10: setQuestion overwrites linkedQuizId -/

/-- Claim C10: every `triggerTournamentQuestion` call that passes its
initial validation (uid resolves, or no uid and the index is in range)
unconditionally overwrites the session's `linkedQuizId` with the call's
argument, which defaults to null — so invoking it without a
`linkedQuizId` on a previously quiz-linked session detaches the
dashboard link as a side effect. -/
theorem setQuestion_overwrites_linkedQuizId (s : TState) (i : Int)
    (l : Option String) (t0 : Option ℚ) (tu : Option String)
    (h : (resolveTarget s i tu).isSome = true) :
    (triggerTournamentQuestion s i l t0 tu).1.linkedQuizId = l := by
  obtain ⟨pr, hpr⟩ := Option.isSome_iff_exists.mp h
  obtain ⟨ti, tq⟩ := pr
  unfold triggerTournamentQuestion
  rw [hpr]
  cases tq with
  | some q => rfl
  | none =>
    cases hg : intGet? s.questions ti with
    | none => simp [hg]
    | some q => simp [hg]

/-- Witness for C10: `setQuestion` without a `linkedQuizId` on a
quiz-linked session detaches the link. -/
theorem setQuestion_overwrites_linkedQuizId_witness :
    (triggerTournamentQuestion questionSessionW10 0 none none (some "qb")).1.linkedQuizId =
      none :=
  setQuestion_overwrites_linkedQuizId questionSessionW10 0 none none (some "qb") (by decide)

/-! ### Claim C5: finalization and persistence failure -/

/-- Claim C5 (amended): a failure persisting the individual participant
score rows (or looking up the tournament row) during `forceEnd` is
caught and logged — the leaderboard broadcast, the redirect and the
registry removal all still happen; but if the durable write of the
scaled leaderboard itself fails, `forceEnd` rejects before the
leaderboard broadcast: nothing is emitted and the session is not
removed. -/
theorem forceEnd_finalization_behavior
    (computeLB : TState → List String → Nat → List LBEntry)
    (quizAsked : Option (List String)) (state : TState)
    (tid : Option String) (saveOk : Bool) :
    ((forceTournamentEnd computeLB quizAsked state true tid saveOk).events =
        [Event.tournamentEnd, Event.redirect]
     ∧ (forceTournamentEnd computeLB quizAsked state true tid saveOk).registry = none
     ∧ (forceTournamentEnd computeLB quizAsked state true tid saveOk).threw = false)
    ∧ ((forceTournamentEnd computeLB quizAsked state false tid saveOk).events = []
     ∧ (forceTournamentEnd computeLB quizAsked state false tid saveOk).registry.isSome = true
     ∧ (forceTournamentEnd computeLB quizAsked state false tid saveOk).threw = true) := by
  refine ⟨⟨?_, ?_, ?_⟩, ?_, ?_, ?_⟩ <;>
    (unfold forceTournamentEnd
     cases truthyS ({ state with timer := false } : TState).linkedQuizId <;>
       cases quizAsked <;> rfl)

/-- Counterexample for C5 as stated: when the durable write of the scaled
leaderboard fails (`prisma.tournoi.update` rejects — it is not inside a
try/catch), NO leaderboard broadcast is emitted and the session is not
removed, contradicting "the in-memory leaderboard broadcast still
proceeds". -/
theorem leaderboard_write_failure_blocks_broadcast :
    ((forceTournamentEnd (fun _ _ _ => []) none endSessionC5 false (some "t1") true).events = [])
    ∧ (Event.tournamentEnd ∉
        (forceTournamentEnd (fun _ _ _ => []) none endSessionC5 false (some "t1") true).events)
    ∧ ((forceTournamentEnd (fun _ _ _ => []) none endSessionC5 false (some "t1") true).registry.isSome
        = true)
    ∧ ((forceTournamentEnd (fun _ _ _ => []) none endSessionC5 false (some "t1") true).threw
        = true) := by
  refine ⟨rfl, ?_, rfl, rfl⟩
  rw [show (forceTournamentEnd (fun _ _ _ => []) none endSessionC5 false (some "t1") true).events
      = [] from rfl]
  exact List.not_mem_nil _

/-! ### Claim C8: pause behaviour -/

/-- Result of `pause` on an Active, non-deferred session (shared
unfolding equation). -/
theorem triggerPause_active_eq (now : ℚ) (s : TState) (rt : Option ℚ) (dur qs : ℚ)
    (hdur : s.currentQuestionDuration = some dur)
    (hqs : s.questionStart = some qs)
    (hd : s.isDiffered = false) (hp : s.paused = false) (hst : s.stopped = false) :
    triggerTournamentPause now s rt =
      ({ clearAllTimers s with
          pausedRemainingTime := some (pauseStoredTime now dur qs rt),
          pausedAt := some now, paused := true, stopped := false },
       [Event.questionStateUpdate "paused" (pauseStoredTime now dur qs rt)] ++
         (if pauseStoredTime now dur qs rt ≤ 0 then []
          else
            match truthyS s.linkedQuizId with
            | some quizId =>
              [Event.quizTimerUpdate quizId "pause" s.currentQuestionUid
                (pauseStoredTime now dur qs rt)]
            | none => [])) := by
  unfold triggerTournamentPause
  rw [if_neg (by simp [hd, hp, hst])]
  simp only [clearAllTimers]
  rw [hdur, hqs]
  rfl

/-- Claim C8 (amended): `pause` is a pure no-op on a deferred,
already-paused or stopped session; on an Active non-deferred session it
cancels the in-flight timers, flips to Paused, and stores
`pausedRemainingTime` equal (after rounding to 0.1 s) to the explicit
override when a POSITIVE one is supplied, otherwise to
`max(0, currentQuestionDuration − elapsed-since-questionStart)` — a
supplied non-positive override is ignored in favour of the computed
value; the dashboard mirror is emitted iff the session is quiz-linked
and the stored remaining time is positive. -/
theorem pause_behavior (now : ℚ) (s : TState) (rt : Option ℚ) (dur qs : ℚ)
    (hdur : s.currentQuestionDuration = some dur)
    (hqs : s.questionStart = some qs) :
    (s.isDiffered = true ∨ s.paused = true ∨ s.stopped = true →
      triggerTournamentPause now s rt = (s, []))
    ∧ (s.isDiffered = false → s.paused = false → s.stopped = false →
      ((triggerTournamentPause now s rt).1.paused = true
      ∧ (triggerTournamentPause now s rt).1.stopped = false
      ∧ (triggerTournamentPause now s rt).1.timer = false
      ∧ (triggerTournamentPause now s rt).1.intervalTimer = false
      ∧ (triggerTournamentPause now s rt).1.timerRef = false
      ∧ (triggerTournamentPause now s rt).1.pausedAt = some now
      ∧ (triggerTournamentPause now s rt).1.pausedRemainingTime =
          some (pauseStoredTime now dur qs rt)
      ∧ ((∃ qid, Event.quizTimerUpdate qid "pause" s.currentQuestionUid
            (pauseStoredTime now dur qs rt) ∈ (triggerTournamentPause now s rt).2) ↔
          ((truthyS s.linkedQuizId).isSome = true ∧
            0 < pauseStoredTime now dur qs rt)))) := by
  constructor
  · intro hno
    unfold triggerTournamentPause
    rw [if_pos (by rcases hno with h | h | h <;> simp [h])]
  · intro hd hp hst
    rw [triggerPause_active_eq now s rt dur qs hdur hqs hd hp hst]
    refine ⟨rfl, rfl, rfl, rfl, rfl, rfl, rfl, ?_⟩
    constructor
    · rintro ⟨qid, hmem⟩
      rw [List.mem_append] at hmem
      rcases hmem with hmem | hmem
      · simp at hmem
      · by_cases hle : pauseStoredTime now dur qs rt ≤ 0
        · rw [if_pos hle] at hmem
          simp at hmem
        · refine ⟨?_, lt_of_not_le hle⟩
          rw [if_neg hle] at hmem
          cases hq : truthyS s.linkedQuizId with
          | none => rw [hq] at hmem; simp at hmem
          | some quizId => rfl
    · rintro ⟨hlinked, hpos⟩
      obtain ⟨quizId, hq⟩ := Option.isSome_iff_exists.mp hlinked
      refine ⟨quizId, ?_⟩
      rw [List.mem_append]
      right
      rw [if_neg (not_le.mpr hpos), hq]
      exact List.mem_singleton.mpr rfl

/-- Counterexample for C8 as stated: pausing with an explicit override of
0 supplied does NOT store 0 — the non-positive override is ignored and
the computed remaining time 7 s is stored instead. -/
theorem pause_nonpositive_override_ignored :
    ((triggerTournamentPause 3000 pauseSessionC8 (some 0)).1.pausedRemainingTime = some 7)
    ∧ ((triggerTournamentPause 3000 pauseSessionC8 (some 0)).1.pausedRemainingTime ≠ some 0) := by
  have hP : pauseStoredTime 3000 10 0 (some 0) = 7 := by
    rw [pauseStoredTime]
    norm_num [roundTenth, round_ofNat, max_def]
  have h := triggerPause_active_eq 3000 pauseSessionC8 (some 0) 10 0 rfl rfl rfl rfl rfl
  constructor
  · rw [h]
    show some (pauseStoredTime 3000 10 0 (some 0)) = some 7
    rw [hP]
  · rw [h]
    show some (pauseStoredTime 3000 10 0 (some 0)) ≠ some 0
    rw [hP]
    intro hcon
    injection hcon with hcon
    norm_num at hcon

/-- Witness for C8: `pause` on an already-paused session is a pure
no-op. -/
theorem pause_behavior_witness :
    triggerTournamentPause 1000 pauseSessionW8 none = (pauseSessionW8, []) :=
  (pause_behavior 1000 pauseSessionW8 none 12 50 rfl rfl).1 (Or.inr (Or.inl rfl))

/-! ### Claim C7: tick floor and expiry cancellation -/

/-- Claim C7 (code bug evidence): the per-second tick emits the
remaining time floored at zero, BUT the two expiry signals do not cancel
each other in both directions.  At the zero-crossing the interval
callback clears only the interval and invokes expiration handling,
leaving the deadline `setTimeout` armed (`timer` still true); expiration
handling (spec-modelled: the spec ascribes it no cancellation of the
sibling timer and no flag change) leaves `paused`/`stopped` false, so
when the deadline callback subsequently fires its guard passes and
expiration handling is invoked a second time for the same countdown. -/
theorem double_expiry_interval_then_deadline :
    ((intervalTick tickSessionC7 1).2.2 =
      [Event.tournamentSetTimer 0 "active", Event.expiration])
    ∧ ((intervalTick tickSessionC7 1).1.timer = true)
    ∧ ((intervalTick tickSessionC7 1).1.paused = false)
    ∧ ((intervalTick tickSessionC7 1).1.stopped = false)
    ∧ ((deadlineFire (intervalTick tickSessionC7 1).1).2 = [Event.expiration])
    ∧ (((intervalTick tickSessionC7 1).2.2 ++
        (deadlineFire (intervalTick tickSessionC7 1).1).2).count Event.expiration = 2) := by
  have hm : (max 0 ((1:ℚ) - 1)) = 0 := by norm_num
  have hz : ((1:ℚ) - 1) ≤ 0 := by norm_num
  have htick : intervalTick tickSessionC7 1 =
      ({ tickSessionC7 with intervalTimer := false }, 1 - 1,
        [Event.tournamentSetTimer (max 0 (1 - 1)) "active"] ++ [Event.expiration]) := by
    unfold intervalTick
    rw [if_neg (by decide)]
    rw [if_pos hz]
  have hdead : deadlineFire ({ tickSessionC7 with intervalTimer := false } : TState) =
      ({ tickSessionC7 with intervalTimer := false }, [Event.expiration]) := by
    unfold deadlineFire
    rw [if_neg (by decide)]
  rw [htick]
  refine ⟨by rw [hm]; rfl, rfl, rfl, rfl, ?_, ?_⟩
  · rw [hdead]
  · rw [hdead, hm]
    decide
